import Mathlib

/-!
Shallow embedding of `src/main.py` (FastAPI-Auto-Docs): a minimal FastAPI
application exposing three route handlers (`read_root`, `read_item`,
`update_item`) and one pydantic model (`Item`).  The handlers are pure echo
functions; the framework's request validation (integer path parameters,
request-body validation against the `Item` schema) is modelled from the spec,
since FastAPI/pydantic are external to the repository.
-/

/-- A JSON value, as produced by serializing a handler's returned mapping.
Python `float` is modelled as `Rat`; the program never computes with prices,
it only echoes them. -/
inductive Value where
  | str  : String → Value
  | int  : Int → Value
  | num  : Rat → Value
  | bool : Bool → Value
  | null : Value
deriving DecidableEq, Repr

/-- A handler's returned mapping: an ordered association of keys to values. -/
abbrev Response := List (String × Value)

/-- The pydantic model `Item` from `src/main.py`: `name: str`, `price: float`,
`is_offer: bool = None`.  The `None` default makes `is_offer` optional, and an
omitted field takes the value `None` (here `none`), not `false`. -/
structure Item where
  name : String
  price : Rat
  is_offer : Option Bool := none
deriving DecidableEq, Repr

/-- Handler for `GET /` (`read_root` in `src/main.py`): returns
`{"Hello": "World"}`. -/
def read_root : Response := [("Hello", Value.str "World")]

/-- Serialization of an optional string: Python `None` becomes JSON `null`. -/
def optStr : Option String → Value
  | some s => Value.str s
  | none => Value.null

/-- Handler for `GET /items/{item_id}` (`read_item` in `src/main.py`):
`item_id: int` path parameter, `q: str = None` optional query parameter
(`q = none` is the declared default, used when the request omits `q`);
returns `{"item_id": item_id, "q": q}`. -/
def read_item (item_id : Int) (q : Option String) : Response :=
  [("item_id", Value.int item_id), ("q", optStr q)]

/-- Handler for `PUT /items/{item_id}` (`update_item` in `src/main.py`):
returns `{"item_name": item.name, "item_id": item_id,
"updated_price": item.price}`. -/
def update_item (item_id : Int) (item : Item) : Response :=
  [("item_name", Value.str item.name),
   ("item_id", Value.int item_id),
   ("updated_price", Value.num item.price)]

/-- The numeric value of a decimal digit character, `none` otherwise. -/
def digitVal (c : Char) : Option Nat :=
  if c.isDigit then some (c.toNat - 48) else none

/-- Accumulate the decimal value of a digit string; fails on any non-digit. -/
def parseNatCore : List Char → Nat → Option Nat
  | [], acc => some acc
  | c :: cs, acc =>
    match digitVal c with
    | some d => parseNatCore cs (acc * 10 + d)
    | none => none

/-- Modelled from the spec: the external framework parses the `{item_id}`
path segment as a decimal integer before invoking a handler ("Non-integer
item_id yields a validation failure, not a successful response"). -/
def parsePathInt (s : String) : Option Int :=
  match s.data with
  | [] => none
  | '-' :: cs =>
    match cs with
    | [] => none
    | _ => (parseNatCore cs 0).map (fun n => -(n : Int))
  | cs => (parseNatCore cs 0).map (fun n => (n : Int))

/-- Modelled from the spec: a raw `PUT` request body for the `Item` schema,
each field either present (`some`) or absent (`none`). -/
structure RawBody where
  name : Option String
  price : Option Rat
  is_offer : Option Bool
deriving DecidableEq, Repr

/-- Modelled from the spec: pydantic validation of a request body against the
`Item` schema — `name` and `price` are required, `is_offer` is optional and
takes the declared default `None` when omitted. -/
def validateItem (b : RawBody) : Option Item :=
  match b.name, b.price with
  | some n, some p => some { name := n, price := p, is_offer := b.is_offer }
  | _, _ => none

/-- The framework's result of dispatching a request: either a successful
handler response or the framework's default validation-error response. -/
inductive Result where
  | ok : Response → Result
  | validationError : Result
deriving DecidableEq, Repr

/-- Modelled from the spec: framework dispatch for `GET /items/{item_id}` —
validate the path segment as an integer, then invoke `read_item`; `q = none`
when the request omits the query parameter. -/
def getItemsRoute (seg : String) (q : Option String) : Result :=
  match parsePathInt seg with
  | some i => Result.ok (read_item i q)
  | none => Result.validationError

/-- Modelled from the spec: framework dispatch for `PUT /items/{item_id}` —
validate the path segment as an integer and the body against the `Item`
schema, then invoke `update_item`. -/
def putItemsRoute (seg : String) (body : RawBody) : Result :=
  match parsePathInt seg, validateItem body with
  | some i, some it => Result.ok (update_item i it)
  | _, _ => Result.validationError

/-- The handler `read_root` run against server state of any type `σ`: the
source handler reads and writes no state, so the state passes through. -/
def read_rootApp {σ : Type} (s : σ) : Response × σ := (read_root, s)

/-- The handler `read_item` run against server state. -/
def read_itemApp {σ : Type} (item_id : Int) (q : Option String) (s : σ) :
    Response × σ := (read_item item_id q, s)

/-- The handler `update_item` run against server state. -/
def update_itemApp {σ : Type} (item_id : Int) (item : Item) (s : σ) :
    Response × σ := (update_item item_id item, s)

/-- C1: for every integer `item_id` and every `Item` body, `update_item`
returns `{"item_name": name, "item_id": item_id, "updated_price": price}`
with the body's values unchanged; in particular `PUT /items/7` with body
`{"name": "pen", "price": 1.5}` returns
`{"item_name": "pen", "item_id": 7, "updated_price": 1.5}`. -/
theorem update_item_echoes (item_id : Int) (n : String) (p : Rat)
    (o : Option Bool) :
    update_item item_id { name := n, price := p, is_offer := o } =
      [("item_name", Value.str n), ("item_id", Value.int item_id),
       ("updated_price", Value.num p)] ∧
    update_item 7 { name := "pen", price := 1.5 } =
      [("item_name", Value.str "pen"), ("item_id", Value.int 7),
       ("updated_price", Value.num 1.5)] :=
  ⟨rfl, rfl⟩

/-- C2: for every integer `item_id` and string `q`, `read_item` returns
`{"item_id": item_id, "q": q}` echoing both inputs unchanged; in particular
`GET /items/42?q=foo` returns `{"item_id": 42, "q": "foo"}`. -/
theorem read_item_echoes (item_id : Int) (q : String) :
    read_item item_id (some q) =
      [("item_id", Value.int item_id), ("q", Value.str q)] ∧
    read_item 42 (some "foo") =
      [("item_id", Value.int 42), ("q", Value.str "foo")] :=
  ⟨rfl, rfl⟩

/-- C3: for every integer `item_id`, a `GET /items/{item_id}` request that
omits the query parameter `q` returns `{"item_id": item_id, "q": null}`:
the optional parameter defaults to `null`. -/
theorem read_item_default_q (item_id : Int) :
    read_item item_id none =
      [("item_id", Value.int item_id), ("q", Value.null)] ∧
    getItemsRoute "42" none =
      Result.ok [("item_id", Value.int 42), ("q", Value.null)] :=
  ⟨rfl, rfl⟩

/-- C4: a request to `GET /items/{item_id}` or `PUT /items/{item_id}` whose
`item_id` path segment does not parse as an integer yields a validation
failure, never a successful handler response. -/
theorem nonint_item_id_validation_failure (seg : String) (q : Option String)
    (body : RawBody) (h : parsePathInt seg = none) :
    getItemsRoute seg q = Result.validationError ∧
    putItemsRoute seg body = Result.validationError := by
  constructor
  · unfold getItemsRoute
    rw [h]
  · unfold putItemsRoute
    rw [h]

/-- Witness for C4 at the concrete non-integer path segment `"abc"`. -/
theorem nonint_item_id_validation_failure_witness :
    parsePathInt "abc" = none ∧
    getItemsRoute "abc" none = Result.validationError ∧
    putItemsRoute "abc" (RawBody.mk (some "pen") (some 1.5) none) =
      Result.validationError := by
  have h : parsePathInt "abc" = none := by decide
  exact ⟨h,
    (nonint_item_id_validation_failure "abc" none
      (RawBody.mk (some "pen") (some 1.5) none) h).1,
    (nonint_item_id_validation_failure "abc" none
      (RawBody.mk (some "pen") (some 1.5) none) h).2⟩

/-- C5: `read_root` returns exactly the mapping `{"Hello": "World"}`, with
no other keys. -/
theorem read_root_hello_world : read_root = [("Hello", Value.str "World")] :=
  rfl

/-- C6 counterexample: the claim that every attribute of the body, `is_offer`
included, is reflected in `update_item`'s returned mapping with its value
unchanged is false: for the body with `is_offer = true`, no entry of the
returned mapping carries the value `true`. -/
theorem update_item_reflects_all_cex :
    Value.bool true ∉
      (update_item 7
        { name := "pen", price := 1.5, is_offer := some true }).map
        Prod.snd := by
  decide

/-- C6 amended: each handler's returned mapping reflects its typed inputs
unchanged except `is_offer`: `read_item` echoes `item_id` and `q`, and
`update_item` reflects `name` and `price` unchanged but its returned mapping
carries no `is_offer` entry at all. -/
theorem handlers_reflect_inputs_amended (item_id : Int) (q : Option String)
    (item : Item) :
    read_item item_id q =
      [("item_id", Value.int item_id), ("q", optStr q)] ∧
    update_item item_id item =
      [("item_name", Value.str item.name), ("item_id", Value.int item_id),
       ("updated_price", Value.num item.price)] ∧
    "is_offer" ∉ (update_item item_id item).map Prod.fst := by
  refine ⟨rfl, rfl, ?_⟩
  have hkeys : (update_item item_id item).map Prod.fst =
      ["item_name", "item_id", "updated_price"] := rfl
  rw [hkeys]
  decide

/-- C7: body validation against the `Item` schema requires `name` and
`price` (a body missing either yields a validation failure) but accepts a
body that omits `is_offer`. -/
theorem item_body_requires_name_price (b : RawBody) (n : String) (p : Rat)
    (h : b.name = none ∨ b.price = none) :
    validateItem b = none ∧
    putItemsRoute "1" b = Result.validationError ∧
    validateItem (RawBody.mk (some n) (some p) none) =
      some { name := n, price := p } := by
  have hv : validateItem b = none := by
    unfold validateItem
    rcases h with h | h
    · rw [h]
    · rw [h]
      cases hb : b.name <;> rfl
  refine ⟨hv, ?_, rfl⟩
  unfold putItemsRoute
  rw [hv]
  rfl

/-- Witness for C7 at the concrete body missing `name`. -/
theorem item_body_requires_name_price_witness :
    ((RawBody.mk none (some 1.5) none).name = none ∨
      (RawBody.mk none (some 1.5) none).price = none) ∧
    (validateItem (RawBody.mk none (some 1.5) none) = none ∧
     putItemsRoute "1" (RawBody.mk none (some 1.5) none) =
       Result.validationError ∧
     validateItem (RawBody.mk (some "pen") (some 1.5) none) =
       some { name := "pen", price := 1.5 }) :=
  ⟨Or.inl rfl,
    item_body_requires_name_price (RawBody.mk none (some 1.5) none)
      "pen" 1.5 (Or.inl rfl)⟩

/-- C8: all three handlers are stateless, side-effect-free and
deterministic: run against any server state, each leaves the state unchanged
and produces a result independent of the state, so two invocations with
equal inputs yield equal results. -/
theorem handlers_stateless (σ : Type) (s t : σ) (item_id : Int)
    (q : Option String) (item : Item) :
    (read_rootApp s).2 = s ∧
    (read_rootApp s).1 = (read_rootApp t).1 ∧
    (read_itemApp item_id q s).2 = s ∧
    (read_itemApp item_id q s).1 = (read_itemApp item_id q t).1 ∧
    (update_itemApp item_id item s).2 = s ∧
    (update_itemApp item_id item s).1 = (update_itemApp item_id item t).1 :=
  ⟨rfl, rfl, rfl, rfl, rfl, rfl⟩

/-- C9: the result of `update_item` is independent of the body's `is_offer`
field, and the returned mapping never contains an `is_offer` key. -/
theorem update_item_independent_of_is_offer (item_id : Int) (n : String)
    (p : Rat) (o o' : Option Bool) (item : Item) :
    update_item item_id { name := n, price := p, is_offer := o } =
      update_item item_id { name := n, price := p, is_offer := o' } ∧
    "is_offer" ∉ (update_item item_id item).map Prod.fst := by
  refine ⟨rfl, ?_⟩
  have hkeys : (update_item item_id item).map Prod.fst =
      ["item_name", "item_id", "updated_price"] := rfl
  rw [hkeys]
  decide

/-- C10: an `Item` constructed from a body that omits `is_offer` has
`is_offer` equal to `none` (the declared default `None`), not `false`. -/
theorem item_is_offer_defaults_null (n : String) (p : Rat) :
    ({ name := n, price := p } : Item).is_offer = none ∧
    validateItem (RawBody.mk (some n) (some p) none) =
      some { name := n, price := p, is_offer := none } ∧
    ({ name := n, price := p } : Item).is_offer ≠ some false :=
  ⟨rfl, rfl, fun h => Option.noConfusion h⟩
